import Mathlib

/-!
Shallow embedding of the brake actuator firmware core
(left_brake.c, can.c, controller.c).

Machine integers are modelled as `Nat` (with explicit `% 2^w` where the C
code can wrap) and `Int` for `int32_t` intermediates.  Hardware reads
(ADC samples, HAL tick, hardware send results) are passed in as explicit
arguments, turning each C routine into a pure state-transition function.
-/

/-! ## Machine-integer helpers -/

/-- 2^32, the modulus of `uint32_t` arithmetic. -/
def U32 : Nat := 4294967296

/-- 2^16, the modulus of `uint16_t` arithmetic. -/
def U16 : Nat := 65536

/-- Truncate to `uint32_t`. -/
def u32 (n : Nat) : Nat := n % U32

/-- `uint32_t` subtraction `a - b` with wrap-around, as the C code computes
tick differences. -/
def sub32 (a b : Nat) : Nat := (a + (U32 - b % U32)) % U32

/-- Convert an `int32_t` value to `uint32_t`, as C's usual arithmetic
conversions do when a signed operand meets an unsigned one. -/
def intToU32 (i : Int) : Nat := (i % (U32 : Int)).toNat

/-! ## left_brake.c : configuration constants -/

def POSITION_RELEASED : Nat := 200
def POSITION_PUSHED : Nat := 3800
def POSITION_TOLERANCE : Nat := 100
def ESTIMATED_PUSH_TIME_MS : Nat := 2000
def ESTIMATED_RELEASE_TIME_MS : Nat := 2000
def POSITION_TIMEOUT_MS : Nat := 5000
def MIN_VALID_POSITION : Nat := 50
def MAX_VALID_POSITION : Nat := 4000
def MAX_POSITION_ERRORS : Nat := 10

def AUTOMATE_LEFT_BRAKE_CMD_BRAKE_STATE_PUSH_CHOICE : Nat := 0
def AUTOMATE_LEFT_BRAKE_CMD_BRAKE_STATE_RELEASE_CHOICE : Nat := 1

/-! ## left_brake.c : state -/

/-- `BrakeState_t` from common.h. -/
inductive BrakeState where
  | RELEASED
  | RELEASING
  | PUSHED
  | PUSHING
  | STOPPED
deriving DecidableEq, Repr

/-- The mutable state of the brake module: the relevant fields of
`app_state` together with the module-static variables of left_brake.c
(`current_position` and `app_state.current_position` are kept in sync by
the code, so a single field models both). -/
structure BrakeSt where
  state : BrakeState
  current_position : Nat
  target_position : Nat
  operation_start_tick : Nat
  estimated_operation_time_ms : Nat
  position_error_count : Nat
deriving DecidableEq, Repr

/-- `IsPositionValid` from left_brake.c. -/
def IsPositionValid (position : Nat) : Bool :=
  decide (MIN_VALID_POSITION ≤ position ∧ position ≤ MAX_VALID_POSITION)

/-- `Brake_Init`.  `initial_position` models the ADC sample read during
initialization. -/
def Brake_Init (initial_position : Nat) : BrakeSt :=
  let s : BrakeSt :=
    { state := BrakeState.RELEASED
      current_position := initial_position
      target_position := POSITION_RELEASED
      operation_start_tick := 0
      estimated_operation_time_ms := ESTIMATED_PUSH_TIME_MS
      position_error_count := 0 }
  if initial_position ≤ POSITION_RELEASED + POSITION_TOLERANCE then
    { s with state := BrakeState.RELEASED, target_position := POSITION_RELEASED }
  else if POSITION_PUSHED - POSITION_TOLERANCE ≤ initial_position then
    { s with state := BrakeState.PUSHED, target_position := POSITION_PUSHED }
  else
    { s with state := BrakeState.RELEASED, target_position := POSITION_RELEASED }

/-- `Brake_UpdatePosition`.  `new_position` models the ADC sample returned
by `ADC_ReadPosition`.  The error counter is a `uint8_t` and wraps at 256. -/
def Brake_UpdatePosition (new_position : Nat) (s : BrakeSt) : BrakeSt :=
  if IsPositionValid new_position then
    { s with current_position := new_position, position_error_count := 0 }
  else
    let cnt := (s.position_error_count + 1) % 256
    if MAX_POSITION_ERRORS ≤ cnt then
      { s with position_error_count := cnt, state := BrakeState.STOPPED }
    else
      { s with position_error_count := cnt }

/-- `Brake_ProcessCommand`.  `tick` models `HAL_GetTick()`. -/
def Brake_ProcessCommand (brake_state : Nat) (tick : Nat) (s : BrakeSt) : BrakeSt :=
  if s.state = BrakeState.STOPPED ∧ MAX_POSITION_ERRORS ≤ s.position_error_count then
    s
  else if brake_state = AUTOMATE_LEFT_BRAKE_CMD_BRAKE_STATE_PUSH_CHOICE then
    if s.state ≠ BrakeState.PUSHING ∧ s.state ≠ BrakeState.PUSHED then
      { s with state := BrakeState.PUSHING
               target_position := POSITION_PUSHED
               operation_start_tick := u32 tick
               estimated_operation_time_ms := ESTIMATED_PUSH_TIME_MS }
    else s
  else if brake_state = AUTOMATE_LEFT_BRAKE_CMD_BRAKE_STATE_RELEASE_CHOICE then
    if s.state ≠ BrakeState.RELEASING ∧ s.state ≠ BrakeState.RELEASED then
      { s with state := BrakeState.RELEASING
               target_position := POSITION_RELEASED
               operation_start_tick := u32 tick
               estimated_operation_time_ms := ESTIMATED_RELEASE_TIME_MS }
    else s
  else s

/-- `UpdateOperationEstimate`.  Distances are `int32_t`; the final products
and conversions follow C's signed/unsigned arithmetic. -/
def UpdateOperationEstimate (tick : Nat) (s : BrakeSt) : BrakeSt :=
  let elapsed : Nat := sub32 tick s.operation_start_tick
  if s.state = BrakeState.PUSHING ∨ s.state = BrakeState.RELEASING then
    let start_pos : Nat :=
      if s.state = BrakeState.PUSHING then POSITION_RELEASED else POSITION_PUSHED
    let target_pos : Nat :=
      if s.state = BrakeState.PUSHING then POSITION_PUSHED else POSITION_RELEASED
    let distance_total : Int := (target_pos : Int) - (start_pos : Int)
    let distance_remaining : Int := (target_pos : Int) - (s.current_position : Int)
    if distance_total = 0 then
      { s with estimated_operation_time_ms := 0 }
    else if 0 < elapsed then
      let distance_traveled : Int := distance_total - distance_remaining
      if 0 < distance_traveled then
        let time_per_unit : Nat := elapsed / intToU32 distance_traveled
        { s with estimated_operation_time_ms := u32 (time_per_unit * intToU32 distance_remaining) }
      else
        let deflt := if s.state = BrakeState.PUSHING then ESTIMATED_PUSH_TIME_MS else ESTIMATED_RELEASE_TIME_MS
        { s with estimated_operation_time_ms := deflt }
    else s
  else
    { s with estimated_operation_time_ms := 0 }

/-- `Brake_Update`.  `tick` models `HAL_GetTick()`. -/
def Brake_Update (tick : Nat) (s : BrakeSt) : BrakeSt :=
  let pos := s.current_position
  if (s.state = BrakeState.PUSHING ∨ s.state = BrakeState.RELEASING) ∧
      POSITION_TIMEOUT_MS < sub32 tick s.operation_start_tick then
    { s with state := BrakeState.STOPPED }
  else
    match s.state with
    | BrakeState.PUSHING =>
        let s1 := UpdateOperationEstimate tick s
        if POSITION_PUSHED - POSITION_TOLERANCE ≤ pos then
          { s1 with state := BrakeState.PUSHED }
        else s1
    | BrakeState.RELEASING =>
        let s1 := UpdateOperationEstimate tick s
        if pos ≤ POSITION_RELEASED + POSITION_TOLERANCE then
          { s1 with state := BrakeState.RELEASED }
        else s1
    | BrakeState.PUSHED => { s with estimated_operation_time_ms := 0 }
    | BrakeState.RELEASED => { s with estimated_operation_time_ms := 0 }
    | BrakeState.STOPPED => { s with estimated_operation_time_ms := 0 }

/-- `Brake_GetTimeToEnd`.  The C function returns a `uint16_t`, hence the
final truncation. -/
def Brake_GetTimeToEnd (tick : Nat) (s : BrakeSt) : Nat :=
  if s.state = BrakeState.PUSHING ∨ s.state = BrakeState.RELEASING then
    let elapsed := sub32 tick s.operation_start_tick
    if elapsed < s.estimated_operation_time_ms then
      (s.estimated_operation_time_ms - elapsed) % U16
    else 0
  else 0

/-- `Brake_EmergencyStop`. -/
def Brake_EmergencyStop (s : BrakeSt) : BrakeSt :=
  { s with state := BrakeState.STOPPED }

/-- `Brake_HasError`. -/
def Brake_HasError (s : BrakeSt) : Bool :=
  decide (MAX_POSITION_ERRORS ≤ s.position_error_count)

/-- `Brake_ClearError`.  `fresh_position` models the ADC sample read by the
embedded `Brake_UpdatePosition` call.  Returns the C return value paired
with the new state. -/
def Brake_ClearError (fresh_position : Nat) (s : BrakeSt) : Bool × BrakeSt :=
  let s0 := { s with position_error_count := 0 }
  let s1 := Brake_UpdatePosition fresh_position s0
  if IsPositionValid s1.current_position then
    if s1.current_position ≤ POSITION_RELEASED + POSITION_TOLERANCE then
      (true, { s1 with state := BrakeState.RELEASED, target_position := POSITION_RELEASED })
    else if POSITION_PUSHED - POSITION_TOLERANCE ≤ s1.current_position then
      (true, { s1 with state := BrakeState.PUSHED, target_position := POSITION_PUSHED })
    else
      (true, { s1 with state := BrakeState.RELEASED, target_position := POSITION_RELEASED })
  else
    (false, s1)

/-! ## controller.c : constants and state -/

def NODE_ID_MCU : Nat := 0xF0
def NODE_ID_PC : Nat := 0x10
def WATCHDOG_TIMEOUT_MS : Nat := 200

/-- Wire values of the heartbeat `health` field (automate.h choices,
documented in controller.h). -/
def AUTOMATE_HEART_BEAT_MSG_HEALTH_OFF_CHOICE : Nat := 0
def AUTOMATE_HEART_BEAT_MSG_HEALTH_ON_CHOICE : Nat := 1
def AUTOMATE_HEART_BEAT_MSG_HEALTH_INIT_CHOICE : Nat := 2
def AUTOMATE_HEART_BEAT_MSG_HEALTH_WARNING_CHOICE : Nat := 3
def AUTOMATE_HEART_BEAT_MSG_HEALTH_FAILURE_CHOICE : Nat := 4
def AUTOMATE_HEART_BEAT_MSG_HEALTH_CRITICAL_FAILURE_CHOICE : Nat := 5

/-- Decoded heartbeat message (`struct automate_heart_beat_msg_t`). -/
structure automate_heart_beat_msg_t where
  node_id : Nat
  msg_count : Nat
  health : Nat
  stamp : Nat
deriving DecidableEq, Repr

/-- The module-static state of controller.c that the claims touch. -/
structure CtrlSt where
  node_id : Nat
  heartbeat_msg_count : Nat
  node_health : Nat
  last_pc_heartbeat_tick : Nat
  pc_heartbeat_msg_count : Nat
  pc_heartbeat_received : Bool
  telemetry_msg_id : Nat
deriving DecidableEq, Repr

/-- `Controller_Init` (timing fields that no claim reads are omitted). -/
def Controller_Init : CtrlSt :=
  { node_id := NODE_ID_MCU
    heartbeat_msg_count := 0
    node_health := AUTOMATE_HEART_BEAT_MSG_HEALTH_INIT_CHOICE
    last_pc_heartbeat_tick := 0
    pc_heartbeat_msg_count := 0
    pc_heartbeat_received := false
    telemetry_msg_id := 0 }

/-- Modelled from the spec: the wire codec `automate.c` / `automate.h` is not
under src/ (only its callers and the header documentation are).  The spec's
interface table gives the heartbeat layout as "byte5 health (0–5)", and
controller.h documents the six valid choices 0–5; the generated range check
accepts exactly the wire-representable values. -/
def automate_heart_beat_msg_health_is_in_range (value : Nat) : Bool :=
  decide (value ≤ 5)

/-- `Controller_SetHealth`. -/
def Controller_SetHealth (health : Nat) (s : CtrlSt) : CtrlSt :=
  if automate_heart_beat_msg_health_is_in_range health then
    { s with node_health := health }
  else s

/-- `Controller_GetHealth`. -/
def Controller_GetHealth (s : CtrlSt) : Nat := s.node_health

/-- `Controller_SetNodeID`; the parameter is a `uint8_t`. -/
def Controller_SetNodeID (id : Nat) (s : CtrlSt) : CtrlSt :=
  { s with node_id := id % 256 }

/-- `Controller_GetNodeID`. -/
def Controller_GetNodeID (s : CtrlSt) : Nat := s.node_id

/-- `SendHeartbeat`: the message handed to the codec, paired with the state
after the counter increment.  `tick` models `HAL_GetTick()`. -/
def SendHeartbeat (tick : Nat) (s : CtrlSt) : automate_heart_beat_msg_t × CtrlSt :=
  ({ node_id := NODE_ID_MCU
     msg_count := s.heartbeat_msg_count
     health := s.node_health
     stamp := tick % U16 },
   { s with heartbeat_msg_count := u32 (s.heartbeat_msg_count + 1) })

/-- The heartbeat branch of `ProcessReceivedMessage`: handling of one decoded
heartbeat frame.  `tick` models `HAL_GetTick()`. -/
def ProcessHeartbeatMessage (hb : automate_heart_beat_msg_t) (tick : Nat) (s : CtrlSt) : CtrlSt :=
  if hb.node_id = NODE_ID_PC then
    { s with last_pc_heartbeat_tick := u32 tick
             pc_heartbeat_msg_count := hb.msg_count
             pc_heartbeat_received := true }
  else s

/-- `UpdateSystemHealth`.  `tick` models `HAL_GetTick()`; `brake` is the
brake-module state read through `Brake_HasError()`. -/
def UpdateSystemHealth (tick : Nat) (brake : BrakeSt) (s : CtrlSt) : CtrlSt :=
  let h0 := s.node_health
  let h1 :=
    if s.pc_heartbeat_received then
      if WATCHDOG_TIMEOUT_MS < sub32 tick s.last_pc_heartbeat_tick then
        if h0 = AUTOMATE_HEART_BEAT_MSG_HEALTH_ON_CHOICE then
          AUTOMATE_HEART_BEAT_MSG_HEALTH_WARNING_CHOICE
        else h0
      else
        if h0 = AUTOMATE_HEART_BEAT_MSG_HEALTH_WARNING_CHOICE then
          AUTOMATE_HEART_BEAT_MSG_HEALTH_ON_CHOICE
        else h0
    else h0
  let h2 :=
    if h1 = AUTOMATE_HEART_BEAT_MSG_HEALTH_INIT_CHOICE ∧ 1000 < tick then
      AUTOMATE_HEART_BEAT_MSG_HEALTH_ON_CHOICE
    else h1
  let h3 :=
    if Brake_HasError brake = true ∧ h2 < AUTOMATE_HEART_BEAT_MSG_HEALTH_FAILURE_CHOICE then
      AUTOMATE_HEART_BEAT_MSG_HEALTH_FAILURE_CHOICE
    else h2
  { s with node_health := h3 }

/-! ## can.c : ring buffers and the transmit drain -/

/-- `CAN_Message_t` from can.h. -/
structure CAN_Message_t where
  id : Nat
  data : List Nat
  len : Nat
  is_extended : Bool
deriving DecidableEq, Repr

instance : Inhabited CAN_Message_t :=
  ⟨{ id := 0, data := [], len := 0, is_extended := false }⟩

def CAN_RX_BUFFER_SIZE : Nat := 8
def CAN_TX_BUFFER_SIZE : Nat := 8

/-- `CAN_RingBuffer_t`: eight message slots plus head, tail and count.  The
same structure backs both the RX and the TX buffer. -/
structure CAN_RingBuffer_t where
  buffer : List CAN_Message_t
  head : Nat
  tail : Nat
  count : Nat
deriving DecidableEq, Repr

/-- The zeroed buffer produced by `CAN_Driver_Init`. -/
def CAN_RingBuffer_init : CAN_RingBuffer_t :=
  { buffer := List.replicate 8 default, head := 0, tail := 0, count := 0 }

/-- `RingBuffer_IsFull`. -/
def RingBuffer_IsFull (b : CAN_RingBuffer_t) (buffer_size : Nat) : Bool :=
  decide (buffer_size ≤ b.count)

/-- `RingBuffer_IsEmpty`. -/
def RingBuffer_IsEmpty (b : CAN_RingBuffer_t) : Bool :=
  decide (b.count = 0)

/-- `RingBuffer_Put`: returns the C return value with the new buffer.  The
count is a `uint8_t`, hence the wrap at 256. -/
def RingBuffer_Put (b : CAN_RingBuffer_t) (msg : CAN_Message_t) (buffer_size : Nat) :
    Bool × CAN_RingBuffer_t :=
  if RingBuffer_IsFull b buffer_size then
    (false, b)
  else
    (true,
      { buffer := b.buffer.set b.head msg
        head := (b.head + 1) % buffer_size
        tail := b.tail
        count := (b.count + 1) % 256 })

/-- `RingBuffer_Get`: `none` models the `false` return, `some` carries the
message written through the out-parameter and the new buffer. -/
def RingBuffer_Get (b : CAN_RingBuffer_t) (buffer_size : Nat) :
    Option (CAN_Message_t × CAN_RingBuffer_t) :=
  if RingBuffer_IsEmpty b then none
  else
    some (b.buffer.getD b.tail default,
      { b with tail := (b.tail + 1) % buffer_size, count := b.count - 1 })

/-- The `while` loop of `CAN_Driver_Transmit`, with explicit fuel (each
successful send strictly decreases the queue count, so `count + 1` rounds
suffice).  `hw` models `HAL_FDCAN_AddMessageToTxFifoQ` returning `HAL_OK`;
the list accumulates the messages handed to the bus, in order. -/
def transmitLoop (hw : CAN_Message_t → Bool) :
    Nat → CAN_RingBuffer_t → List CAN_Message_t → CAN_RingBuffer_t × List CAN_Message_t
  | 0, b, sent => (b, sent)
  | Nat.succ fuel, b, sent =>
    match RingBuffer_Get b CAN_TX_BUFFER_SIZE with
    | none => (b, sent)
    | some (msg, b1) =>
        if hw msg then transmitLoop hw fuel b1 (sent ++ [msg])
        else ((RingBuffer_Put b1 msg CAN_TX_BUFFER_SIZE).2, sent)

/-- `CAN_Driver_Transmit` acting on the TX buffer: drains queued messages to
`hw`, re-enqueueing the in-flight message and stopping on a failed send. -/
def CAN_Driver_Transmit (hw : CAN_Message_t → Bool) (b : CAN_RingBuffer_t) :
    CAN_RingBuffer_t × List CAN_Message_t :=
  transmitLoop hw (b.count + 1) b []

/-! ## Operation sequences over a ring buffer (for the invariant claim) -/

/-- One producer/consumer operation on a ring buffer. -/
inductive RBOp where
  | put : CAN_Message_t → RBOp
  | get : RBOp

/-- Apply one operation (the result flag is discarded, as callers that
ignore it do). -/
def RBStep (b : CAN_RingBuffer_t) : RBOp → CAN_RingBuffer_t
  | RBOp.put msg => (RingBuffer_Put b msg 8).2
  | RBOp.get =>
      match RingBuffer_Get b 8 with
      | none => b
      | some p => p.2

/-- Run a sequence of operations. -/
def RBRun (ops : List RBOp) (b : CAN_RingBuffer_t) : CAN_RingBuffer_t :=
  ops.foldl RBStep b

/-- The structural invariant of an 8-slot ring buffer. -/
def RBWF (b : CAN_RingBuffer_t) : Prop :=
  b.count ≤ 8 ∧ b.head < 8 ∧ b.tail < 8 ∧ b.buffer.length = 8

instance (b : CAN_RingBuffer_t) : Decidable (RBWF b) := by
  unfold RBWF; infer_instance

/-! ## Concrete states used by counterexamples and witnesses -/

/-- A STOPPED state reached by an emergency stop from a freshly initialized
released brake (the error counter is 0). -/
def stoppedByEmergency : BrakeSt := Brake_EmergencyStop (Brake_Init 200)

/-- A STOPPED state reached by ten consecutive invalid samples after a valid
mid-range sample of 2000: the error counter is at its threshold and the last
valid position 2000 is retained. -/
def stoppedByBadSamples : BrakeSt :=
  (List.replicate 10 (4095 : Nat)).foldl (fun s p => Brake_UpdatePosition p s) (Brake_Init 2000)

/-- A PUSHING state mid-operation: commanded at tick 0 from released,
position has advanced to 300. -/
def pushingAt300 : BrakeSt :=
  Brake_UpdatePosition 300 (Brake_ProcessCommand 0 0 (Brake_Init 200))

/-- The PUSHING state after a `Brake_Update` at tick 4000 recomputed the
estimate from position 300. -/
def pushingLateEstimate : BrakeSt := Brake_Update 4000 pushingAt300

/-- A controller state with health ON whose peer was last seen at tick 0. -/
def ctrlOnPeerAt0 : CtrlSt :=
  { node_id := NODE_ID_MCU
    heartbeat_msg_count := 0
    node_health := AUTOMATE_HEART_BEAT_MSG_HEALTH_ON_CHOICE
    last_pc_heartbeat_tick := 0
    pc_heartbeat_msg_count := 7
    pc_heartbeat_received := true
    telemetry_msg_id := 0 }

/-- A brake state whose fault signal is clear. -/
def brakeNoError : BrakeSt := Brake_Init 200

/-- Two distinct outbound messages, enqueued in the order A then B. -/
def msgA : CAN_Message_t := { id := 1, data := [17], len := 1, is_extended := true }

def msgB : CAN_Message_t := { id := 2, data := [34], len := 1, is_extended := true }

/-- The TX ring after enqueueing A then B into the startup buffer. -/
def txAB : CAN_RingBuffer_t :=
  (RingBuffer_Put (RingBuffer_Put CAN_RingBuffer_init msgA 8).2 msgB 8).2

/-- A full 8-slot buffer. -/
def fullRing : CAN_RingBuffer_t :=
  { buffer := List.replicate 8 default, head := 0, tail := 0, count := 8 }

/-- A mid-push state with the default estimate, used as witness input. -/
def pushingDefaultEstimate : BrakeSt :=
  { state := BrakeState.PUSHING
    current_position := 1000
    target_position := POSITION_PUSHED
    operation_start_tick := 0
    estimated_operation_time_ms := 2000
    position_error_count := 0 }

/-! ## Shared helper lemmas -/

theorem intToU32_eq_toNat (i : Int) (h0 : 0 ≤ i) (h1 : i < (U32 : Int)) :
    intToU32 i = i.toNat := by
  unfold intToU32
  rw [Int.emod_eq_of_lt h0 h1]

theorem RBWF_step (b : CAN_RingBuffer_t) (op : RBOp) (h : RBWF b) : RBWF (RBStep b op) := by
  obtain ⟨hc, hh, ht, hl⟩ := h
  cases op with
  | put msg =>
      simp only [RBStep, RingBuffer_Put, RingBuffer_IsFull]
      split
      · exact ⟨hc, hh, ht, hl⟩
      · rename_i hfull
        simp only [decide_eq_true_eq, Nat.not_le] at hfull
        unfold RBWF
        dsimp only
        refine ⟨by omega, by omega, ht, ?_⟩
        rw [List.length_set]; exact hl
  | get =>
      by_cases hc0 : b.count = 0
      · simp [RBStep, RingBuffer_Get, RingBuffer_IsEmpty, hc0]
        exact ⟨hc, hh, ht, hl⟩
      · simp [RBStep, RingBuffer_Get, RingBuffer_IsEmpty, hc0]
        unfold RBWF
        dsimp only
        exact ⟨by omega, hh, by omega, hl⟩

theorem RBWF_run (ops : List RBOp) (b : CAN_RingBuffer_t) (h : RBWF b) : RBWF (RBRun ops b) := by
  induction ops generalizing b with
  | nil => exact h
  | cons op rest ih => exact ih (RBStep b op) (RBWF_step b op h)



/-! ## Claim theorems -/

/-- C1 (counterexample): a STOPPED state reached by an emergency stop (error
counter 0) is reachable, and processing a PUSH command from it does change
the actuator state, to PUSHING — commands are only rejected when STOPPED was
entered with the invalid-sample counter at its threshold. -/
theorem C1_emergency_stop_push_counterexample :
    stoppedByEmergency.state = BrakeState.STOPPED ∧
    stoppedByEmergency.position_error_count = 0 ∧
    (Brake_ProcessCommand AUTOMATE_LEFT_BRAKE_CMD_BRAKE_STATE_PUSH_CHOICE 5 stoppedByEmergency).state
      = BrakeState.PUSHING := by
  decide

/-- C1 (amended): from a STOPPED state, `Brake_ProcessCommand` leaves the
state machine unchanged exactly when the invalid-sample counter is at its
threshold; when the counter is below the threshold (timeout or emergency
stop without a sensor fault) a PUSH command moves to PUSHING and a RELEASE
command moves to RELEASING. -/
theorem C1_stopped_command_policy (s : BrakeSt) (cmd tick : Nat) :
    (s.state = BrakeState.STOPPED → MAX_POSITION_ERRORS ≤ s.position_error_count →
      Brake_ProcessCommand cmd tick s = s) ∧
    (s.state = BrakeState.STOPPED → s.position_error_count < MAX_POSITION_ERRORS →
      (Brake_ProcessCommand AUTOMATE_LEFT_BRAKE_CMD_BRAKE_STATE_PUSH_CHOICE tick s).state
          = BrakeState.PUSHING ∧
      (Brake_ProcessCommand AUTOMATE_LEFT_BRAKE_CMD_BRAKE_STATE_RELEASE_CHOICE tick s).state
          = BrakeState.RELEASING) := by
  constructor
  · intro h1 h2
    unfold Brake_ProcessCommand
    rw [if_pos ⟨h1, h2⟩]
  · intro h1 h2
    have h2' : ¬ MAX_POSITION_ERRORS ≤ s.position_error_count := Nat.not_le.mpr h2
    constructor <;>
      simp [Brake_ProcessCommand, h1, h2',
        AUTOMATE_LEFT_BRAKE_CMD_BRAKE_STATE_PUSH_CHOICE,
        AUTOMATE_LEFT_BRAKE_CMD_BRAKE_STATE_RELEASE_CHOICE]

/-- C1 (witness): the amended policy evaluated at the two kinds of STOPPED
state. -/
theorem C1_stopped_command_policy_witness :
    Brake_ProcessCommand 0 7 stoppedByBadSamples = stoppedByBadSamples ∧
    (Brake_ProcessCommand 0 7 stoppedByEmergency).state = BrakeState.PUSHING :=
  ⟨(C1_stopped_command_policy stoppedByBadSamples 0 7).1 (by decide) (by decide),
   ((C1_stopped_command_policy stoppedByEmergency 0 7).2 (by decide) (by decide)).1⟩

/-- C2 (code bug exhibit): with messages A then B queued, a drain whose
hardware send fails hands nothing to the bus and re-enqueues A at the back
of the ring: the next message retried on the following drain is B, and a
fully successful follow-up drain delivers [B, A] — not the enqueue (FIFO)
order [A, B] that the claim and can.h's documentation promise. -/
theorem C2_transmit_requeue_reorders :
    (CAN_Driver_Transmit (fun _ => false) txAB).2 = [] ∧
    ((RingBuffer_Get (CAN_Driver_Transmit (fun _ => false) txAB).1 CAN_TX_BUFFER_SIZE).map
        (fun p => p.1)) = some msgB ∧
    (CAN_Driver_Transmit (fun _ => true) (CAN_Driver_Transmit (fun _ => false) txAB).1).2
      = [msgB, msgA] ∧
    msgA ≠ msgB := by
  decide

/-- C3 (counterexample): from a reachable STOPPED state that retains the
valid stored position 2000, `Brake_ClearError` with a still-invalid fresh
sample (4095) returns true and moves to RELEASED instead of failing and
retaining STOPPED: the classification is made against the stored position,
not the fresh sample. -/
theorem C3_invalid_fresh_sample_counterexample :
    stoppedByBadSamples.state = BrakeState.STOPPED ∧
    Brake_HasError stoppedByBadSamples = true ∧
    IsPositionValid 4095 = false ∧
    (Brake_ClearError 4095 stoppedByBadSamples).1 = true ∧
    (Brake_ClearError 4095 stoppedByBadSamples).2.state = BrakeState.RELEASED := by
  decide

/-- C3 (amended): `Brake_ClearError` resets the error counter, refreshes the
stored position from the fresh sample when that sample is valid, and then
classifies the stored position: valid fresh sample — counter cleared,
classification of the fresh sample (at or below 300 RELEASED, at or above
3700 PUSHED, otherwise RELEASED), returns true; invalid fresh sample with an
invalid stored position — returns false with the state retained (counter at
1); invalid fresh sample with a valid stored position — returns true and
classifies the retained stored position. -/
theorem C3_clearError_classifies_stored_position (s : BrakeSt) (fresh : Nat) :
    (IsPositionValid fresh = true →
      (Brake_ClearError fresh s).1 = true ∧
      (Brake_ClearError fresh s).2.position_error_count = 0 ∧
      (Brake_ClearError fresh s).2.current_position = fresh ∧
      (Brake_ClearError fresh s).2.state =
        (if fresh ≤ POSITION_RELEASED + POSITION_TOLERANCE then BrakeState.RELEASED
         else if POSITION_PUSHED - POSITION_TOLERANCE ≤ fresh then BrakeState.PUSHED
         else BrakeState.RELEASED)) ∧
    (IsPositionValid fresh = false → IsPositionValid s.current_position = false →
      Brake_ClearError fresh s = (false, { s with position_error_count := 1 })) ∧
    (IsPositionValid fresh = false → IsPositionValid s.current_position = true →
      (Brake_ClearError fresh s).1 = true ∧
      (Brake_ClearError fresh s).2.current_position = s.current_position ∧
      (Brake_ClearError fresh s).2.position_error_count = 1 ∧
      (Brake_ClearError fresh s).2.state =
        (if s.current_position ≤ POSITION_RELEASED + POSITION_TOLERANCE then BrakeState.RELEASED
         else if POSITION_PUSHED - POSITION_TOLERANCE ≤ s.current_position then BrakeState.PUSHED
         else BrakeState.RELEASED)) := by
  refine ⟨?_, ?_, ?_⟩
  · intro hv
    simp [Brake_ClearError, Brake_UpdatePosition, hv, MAX_POSITION_ERRORS]
    split_ifs <;> simp
  · intro hv hc
    simp [Brake_ClearError, Brake_UpdatePosition, hv, hc, MAX_POSITION_ERRORS]
  · intro hv hc
    simp [Brake_ClearError, Brake_UpdatePosition, hv, hc, MAX_POSITION_ERRORS]
    split_ifs <;> simp

/-- C3 (witness): the amended behavior at a valid fresh sample (190, below
the released threshold) and at an invalid fresh sample over the error state
that retains the valid stored position 2000. -/
theorem C3_clearError_classifies_stored_position_witness :
    ((Brake_ClearError 190 stoppedByBadSamples).1 = true ∧
      (Brake_ClearError 190 stoppedByBadSamples).2.position_error_count = 0 ∧
      (Brake_ClearError 190 stoppedByBadSamples).2.current_position = 190 ∧
      (Brake_ClearError 190 stoppedByBadSamples).2.state =
        (if (190 : Nat) ≤ POSITION_RELEASED + POSITION_TOLERANCE then BrakeState.RELEASED
         else if POSITION_PUSHED - POSITION_TOLERANCE ≤ (190 : Nat) then BrakeState.PUSHED
         else BrakeState.RELEASED)) ∧
    (Brake_ClearError 4200 stoppedByEmergency).1 = true :=
  ⟨(C3_clearError_classifies_stored_position stoppedByBadSamples 190).1 (by decide),
   ((C3_clearError_classifies_stored_position stoppedByEmergency 4200).2.2 (by decide)
      (by decide)).1⟩

/-- C4 (confirmed): the startup buffer satisfies the structural invariant;
every sequence of Put and Get operations preserves `0 ≤ count ≤ 8` with head
and tail in `[0, 8)` (they advance modulo 8 by construction of the
operations); and a Put on a full buffer returns false and leaves the buffer
contents, indices and count unchanged — the newest message is the rejected
one. -/
theorem C4_ringbuffer_invariant (b : CAN_RingBuffer_t) (ops : List RBOp) (msg : CAN_Message_t) :
    RBWF CAN_RingBuffer_init ∧
    (RBWF b → RBWF (RBRun ops b)) ∧
    (8 ≤ b.count → RingBuffer_Put b msg 8 = (false, b)) := by
  refine ⟨by decide, fun h => RBWF_run ops b h, fun h => ?_⟩
  simp [RingBuffer_Put, RingBuffer_IsFull, h]

/-- C4 (witness): the invariant holds after a put-get-put sequence from the
startup buffer, and a put on a concrete full buffer is rejected without any
change. -/
theorem C4_ringbuffer_invariant_witness :
    RBWF (RBRun [RBOp.put msgA, RBOp.get, RBOp.put msgB] CAN_RingBuffer_init) ∧
    RingBuffer_Put fullRing msgA 8 = (false, fullRing) :=
  ⟨(C4_ringbuffer_invariant CAN_RingBuffer_init [RBOp.put msgA, RBOp.get, RBOp.put msgB]
      msgA).2.1 (by decide),
   (C4_ringbuffer_invariant fullRing [] msgA).2.2 (by decide)⟩

/-- C5 (confirmed): with a peer heartbeat ever seen, last at tick 0, and
health ON, evaluation at tick 199 and at exactly tick 200 leaves health ON,
evaluation at tick 201 yields WARNING, and after a fresh peer heartbeat at
tick 250 an evaluation at tick 251 returns health to ON: the 200-unit
watchdog timeout is strict greater-than. -/
theorem C5_watchdog_strict_timeout :
    (UpdateSystemHealth 199 brakeNoError ctrlOnPeerAt0).node_health
        = AUTOMATE_HEART_BEAT_MSG_HEALTH_ON_CHOICE ∧
    (UpdateSystemHealth 200 brakeNoError ctrlOnPeerAt0).node_health
        = AUTOMATE_HEART_BEAT_MSG_HEALTH_ON_CHOICE ∧
    (UpdateSystemHealth 201 brakeNoError ctrlOnPeerAt0).node_health
        = AUTOMATE_HEART_BEAT_MSG_HEALTH_WARNING_CHOICE ∧
    (UpdateSystemHealth 251 brakeNoError
        (ProcessHeartbeatMessage
          { node_id := NODE_ID_PC, msg_count := 8, health := 1, stamp := 250 } 250
          (UpdateSystemHealth 201 brakeNoError ctrlOnPeerAt0))).node_health
        = AUTOMATE_HEART_BEAT_MSG_HEALTH_ON_CHOICE := by
  decide

/-- C6 (confirmed): `UpdateSystemHealth` never exits FAILURE — whatever the
tick and peer-heartbeat history, a FAILURE health stays FAILURE — and
whenever the brake fault signal is asserted while health is below FAILURE
severity, the call sets health to FAILURE. -/
theorem C6_failure_sticky_and_escalation (tick : Nat) (brake : BrakeSt) (s : CtrlSt) :
    (s.node_health = AUTOMATE_HEART_BEAT_MSG_HEALTH_FAILURE_CHOICE →
      (UpdateSystemHealth tick brake s).node_health
        = AUTOMATE_HEART_BEAT_MSG_HEALTH_FAILURE_CHOICE) ∧
    (Brake_HasError brake = true →
      s.node_health < AUTOMATE_HEART_BEAT_MSG_HEALTH_FAILURE_CHOICE →
      (UpdateSystemHealth tick brake s).node_health
        = AUTOMATE_HEART_BEAT_MSG_HEALTH_FAILURE_CHOICE) := by
  constructor
  · intro h
    simp only [UpdateSystemHealth, AUTOMATE_HEART_BEAT_MSG_HEALTH_ON_CHOICE,
      AUTOMATE_HEART_BEAT_MSG_HEALTH_WARNING_CHOICE, AUTOMATE_HEART_BEAT_MSG_HEALTH_INIT_CHOICE,
      AUTOMATE_HEART_BEAT_MSG_HEALTH_FAILURE_CHOICE] at h ⊢
    split_ifs <;> simp_all
  · intro hb h
    simp only [UpdateSystemHealth, AUTOMATE_HEART_BEAT_MSG_HEALTH_ON_CHOICE,
      AUTOMATE_HEART_BEAT_MSG_HEALTH_WARNING_CHOICE, AUTOMATE_HEART_BEAT_MSG_HEALTH_INIT_CHOICE,
      AUTOMATE_HEART_BEAT_MSG_HEALTH_FAILURE_CHOICE] at h ⊢
    split_ifs <;> simp_all

/-- C6 (witness): FAILURE set through the public override stays FAILURE, and
a brake fault escalates an ON controller to FAILURE. -/
theorem C6_failure_sticky_and_escalation_witness :
    (UpdateSystemHealth 500 brakeNoError
        (Controller_SetHealth AUTOMATE_HEART_BEAT_MSG_HEALTH_FAILURE_CHOICE
          Controller_Init)).node_health = AUTOMATE_HEART_BEAT_MSG_HEALTH_FAILURE_CHOICE ∧
    (UpdateSystemHealth 500 stoppedByBadSamples ctrlOnPeerAt0).node_health
        = AUTOMATE_HEART_BEAT_MSG_HEALTH_FAILURE_CHOICE :=
  ⟨(C6_failure_sticky_and_escalation 500 brakeNoError
      (Controller_SetHealth AUTOMATE_HEART_BEAT_MSG_HEALTH_FAILURE_CHOICE
        Controller_Init)).1 (by decide),
   (C6_failure_sticky_and_escalation 500 stoppedByBadSamples ctrlOnPeerAt0).2
      (by decide) (by decide)⟩

/-- C7 (counterexample): a reachable PUSHING state (commanded at tick 0,
position advanced to 300, estimate recomputed by `Brake_Update` at tick
4000) stores the estimate 140000; at tick 4000 the claim's value
`max(0, estimate − elapsed)` is 136000, but `Brake_GetTimeToEnd` returns
the 16-bit truncation 4928. -/
theorem C7_truncation_counterexample :
    pushingLateEstimate.state = BrakeState.PUSHING ∧
    pushingLateEstimate.estimated_operation_time_ms = 140000 ∧
    sub32 4000 pushingLateEstimate.operation_start_tick = 4000 ∧
    pushingLateEstimate.estimated_operation_time_ms
        - sub32 4000 pushingLateEstimate.operation_start_tick = 136000 ∧
    Brake_GetTimeToEnd 4000 pushingLateEstimate = 4928 := by
  decide

/-- C7 (amended): in PUSHING or RELEASING, `Brake_GetTimeToEnd` returns
`max(0, estimate − elapsed)` truncated to 16 bits — equal to the exact
`max(0, estimate − elapsed)` (Nat subtraction) whenever that difference is
below 2^16 — and returns 0 in RELEASED, PUSHED and STOPPED. -/
theorem C7_time_to_end_truncated (s : BrakeSt) (tick : Nat) :
    ((s.state = BrakeState.PUSHING ∨ s.state = BrakeState.RELEASING) →
      s.estimated_operation_time_ms < sub32 tick s.operation_start_tick + U16 →
      Brake_GetTimeToEnd tick s
        = s.estimated_operation_time_ms - sub32 tick s.operation_start_tick) ∧
    ((s.state = BrakeState.RELEASED ∨ s.state = BrakeState.PUSHED ∨
        s.state = BrakeState.STOPPED) →
      Brake_GetTimeToEnd tick s = 0) := by
  constructor
  · intro hst hb
    simp only [Brake_GetTimeToEnd]
    rw [if_pos hst]
    by_cases he : sub32 tick s.operation_start_tick < s.estimated_operation_time_ms
    · rw [if_pos he, Nat.mod_eq_of_lt]
      unfold U16 at hb ⊢
      omega
    · rw [if_neg he]
      omega
  · intro hst
    rcases hst with h | h | h <;> simp [Brake_GetTimeToEnd, h]

/-- C7 (witness): the amended statement evaluated mid-push with the default
estimate 2000 at tick 500 (yielding 1500) and at a STOPPED state. -/
theorem C7_time_to_end_truncated_witness :
    Brake_GetTimeToEnd 500 pushingDefaultEstimate
      = pushingDefaultEstimate.estimated_operation_time_ms
          - sub32 500 pushingDefaultEstimate.operation_start_tick ∧
    Brake_GetTimeToEnd 500 stoppedByEmergency = 0 :=
  ⟨(C7_time_to_end_truncated pushingDefaultEstimate 500).1 (by decide) (by decide),
   (C7_time_to_end_truncated stoppedByEmergency 500).2 (by decide)⟩

/-- C8 (counterexample): in the reachable PUSHING state with position 300
(distance covered 100, distance remaining 3500) at elapsed 150, the code
stores (150 / 100) * 3500 = 3500, while exact integer arithmetic
`elapsed * distance_remaining / distance_covered` gives 150 * 3500 / 100 =
5250: the division happens before the multiplication. -/
theorem C8_division_order_counterexample :
    pushingAt300.state = BrakeState.PUSHING ∧
    pushingAt300.current_position = 300 ∧
    sub32 150 pushingAt300.operation_start_tick = 150 ∧
    (UpdateOperationEstimate 150 pushingAt300).estimated_operation_time_ms = 3500 ∧
    (150 * 3500) / 100 = 5250 ∧
    (UpdateOperationEstimate 150 pushingAt300).estimated_operation_time_ms
      ≠ (sub32 150 pushingAt300.operation_start_tick
          * (POSITION_PUSHED - pushingAt300.current_position))
            / (pushingAt300.current_position - POSITION_RELEASED) := by
  decide


/-- C8 (amended): in PUSHING with elapsed > 0 and distance covered > 0 the
recomputed estimate equals `(elapsed / distance_covered) *
distance_remaining` — the integer division happens before the
multiplication, so the result is generally below the exact
`elapsed * distance_remaining / distance_covered`; while distance covered is
not positive the estimate is set to the default of 2000 time units (in the
code's distance convention this covers the entire normal RELEASING descent
below the pushed reference, whose covered distance never becomes
positive). -/
theorem C8_estimate_division_order (s : BrakeSt) (tick : Nat) :
    (s.state = BrakeState.PUSHING →
      0 < sub32 tick s.operation_start_tick →
      sub32 tick s.operation_start_tick ≤ POSITION_TIMEOUT_MS →
      POSITION_RELEASED < s.current_position →
      s.current_position ≤ POSITION_PUSHED →
      (UpdateOperationEstimate tick s).estimated_operation_time_ms
        = (sub32 tick s.operation_start_tick / (s.current_position - POSITION_RELEASED))
            * (POSITION_PUSHED - s.current_position)) ∧
    (s.state = BrakeState.PUSHING →
      0 < sub32 tick s.operation_start_tick →
      s.current_position ≤ POSITION_RELEASED →
      (UpdateOperationEstimate tick s).estimated_operation_time_ms
        = ESTIMATED_PUSH_TIME_MS) ∧
    (s.state = BrakeState.RELEASING →
      0 < sub32 tick s.operation_start_tick →
      s.current_position ≤ POSITION_PUSHED →
      (UpdateOperationEstimate tick s).estimated_operation_time_ms
        = ESTIMATED_RELEASE_TIME_MS) := by
  refine ⟨?_, ?_, ?_⟩
  · intro h1 he hT hlo hhi
    simp only [POSITION_RELEASED, POSITION_PUSHED, POSITION_TIMEOUT_MS] at hT hlo hhi ⊢
    simp only [UpdateOperationEstimate, h1, POSITION_RELEASED, POSITION_PUSHED]
    norm_num
    rw [if_pos he, if_pos (show (3800 : Int) - (s.current_position : Int) < 3600 from by omega)]
    have htrav : intToU32 (3600 - ((3800 : Int) - (s.current_position : Int)))
        = s.current_position - 200 := by
      rw [intToU32_eq_toNat (3600 - ((3800 : Int) - (s.current_position : Int)))
        (by omega) (by unfold U32; omega)]
      omega
    have hrem : intToU32 ((3800 : Int) - (s.current_position : Int))
        = 3800 - s.current_position := by
      rw [intToU32_eq_toNat ((3800 : Int) - (s.current_position : Int))
        (by omega) (by unfold U32; omega)]
      omega
    dsimp only
    rw [htrav, hrem]
    have hd : sub32 tick s.operation_start_tick / (s.current_position - 200) ≤ 5000 :=
      le_trans (Nat.div_le_self _ _) hT
    have hr : 3800 - s.current_position ≤ 3600 := by omega
    have hprod := Nat.mul_le_mul hd hr
    unfold u32 U32
    rw [Nat.mod_eq_of_lt (by omega)]
  · intro h1 he hlo
    simp only [POSITION_RELEASED] at hlo
    simp only [UpdateOperationEstimate, h1, POSITION_RELEASED, POSITION_PUSHED]
    norm_num
    rw [if_pos he, if_neg (show ¬ ((3800 : Int) - (s.current_position : Int) < 3600) from by omega)]
  · intro h1 he hhi
    simp only [POSITION_PUSHED] at hhi
    simp only [UpdateOperationEstimate, h1, POSITION_RELEASED, POSITION_PUSHED]
    norm_num
    rw [if_pos he]
    have hne : ¬ (BrakeState.RELEASING = BrakeState.PUSHING) := by decide
    simp only [if_neg hne]
    norm_num
    rw [if_neg (show ¬ (3800 < s.current_position) from by omega)]

/-- C8 (witness): the amended statement evaluated at the reachable
mid-push state with position 300 at elapsed 150 (estimate (150/100)*3500 =
3500), at an early push with position still 200, and at a releasing state
with position 1000. -/
theorem C8_estimate_division_order_witness :
    (UpdateOperationEstimate 150 pushingAt300).estimated_operation_time_ms
        = (sub32 150 pushingAt300.operation_start_tick
            / (pushingAt300.current_position - POSITION_RELEASED))
          * (POSITION_PUSHED - pushingAt300.current_position) ∧
    (UpdateOperationEstimate 150 (Brake_ProcessCommand 0 0 (Brake_Init 200))).estimated_operation_time_ms
        = ESTIMATED_PUSH_TIME_MS ∧
    (UpdateOperationEstimate 150 (Brake_ProcessCommand 1 0 (Brake_Init 3800))).estimated_operation_time_ms
        = ESTIMATED_RELEASE_TIME_MS :=
  ⟨(C8_estimate_division_order pushingAt300 150).1 (by decide) (by decide) (by decide)
      (by decide) (by decide),
   (C8_estimate_division_order (Brake_ProcessCommand 0 0 (Brake_Init 200)) 150).2.1
      (by decide) (by decide) (by decide),
   (C8_estimate_division_order (Brake_ProcessCommand 1 0 (Brake_Init 3800)) 150).2.2
      (by decide) (by decide) (by decide)⟩

/-- C9 (counterexample): the override accepts CRITICAL_FAILURE (wire value
5), which is not one of the four variants named by the claim, and changes
the stored health — so it is not the case that every input outside the four
named variants leaves the stored health unchanged. -/
theorem C9_setHealth_accepts_critical_counterexample :
    (Controller_SetHealth AUTOMATE_HEART_BEAT_MSG_HEALTH_CRITICAL_FAILURE_CHOICE
        Controller_Init).node_health = AUTOMATE_HEART_BEAT_MSG_HEALTH_CRITICAL_FAILURE_CHOICE ∧
    Controller_Init.node_health ≠ AUTOMATE_HEART_BEAT_MSG_HEALTH_CRITICAL_FAILURE_CHOICE ∧
    AUTOMATE_HEART_BEAT_MSG_HEALTH_CRITICAL_FAILURE_CHOICE ≠ AUTOMATE_HEART_BEAT_MSG_HEALTH_INIT_CHOICE ∧
    AUTOMATE_HEART_BEAT_MSG_HEALTH_CRITICAL_FAILURE_CHOICE ≠ AUTOMATE_HEART_BEAT_MSG_HEALTH_ON_CHOICE ∧
    AUTOMATE_HEART_BEAT_MSG_HEALTH_CRITICAL_FAILURE_CHOICE ≠ AUTOMATE_HEART_BEAT_MSG_HEALTH_WARNING_CHOICE ∧
    AUTOMATE_HEART_BEAT_MSG_HEALTH_CRITICAL_FAILURE_CHOICE ≠ AUTOMATE_HEART_BEAT_MSG_HEALTH_FAILURE_CHOICE := by
  decide

/-- C9 (amended): `Controller_SetHealth` accepts the override exactly for
the six wire-defined health values 0–5 (OFF, ON, INIT, WARNING, FAILURE,
CRITICAL_FAILURE); for every value above 5 the stored state is left
unchanged. -/
theorem C9_setHealth_range (v : Nat) (s : CtrlSt) :
    (v ≤ 5 → Controller_SetHealth v s = { s with node_health := v }) ∧
    (5 < v → Controller_SetHealth v s = s) := by
  constructor
  · intro h
    simp [Controller_SetHealth, automate_heart_beat_msg_health_is_in_range, h]
  · intro h
    simp [Controller_SetHealth, automate_heart_beat_msg_health_is_in_range, Nat.not_le.mpr h]

/-- C9 (witness): the amended rule at an accepted value (3, WARNING) and at
a rejected value (7). -/
theorem C9_setHealth_range_witness :
    Controller_SetHealth 3 Controller_Init = { Controller_Init with node_health := 3 } ∧
    Controller_SetHealth 7 Controller_Init = Controller_Init :=
  ⟨(C9_setHealth_range 3 Controller_Init).1 (by decide),
   (C9_setHealth_range 7 Controller_Init).2 (by decide)⟩

/-- C10 (confirmed): the heartbeat built by `SendHeartbeat` always carries
the constant MCU origin identifier 0xF0 in its node_id field, whatever node
id was stored through `Controller_SetNodeID` — even though the setter does
store its value, as the third conjunct shows. -/
theorem C10_heartbeat_node_id_constant (v tick : Nat) (s : CtrlSt) :
    (SendHeartbeat tick (Controller_SetNodeID v s)).1.node_id = NODE_ID_MCU ∧
    (SendHeartbeat tick s).1.node_id = NODE_ID_MCU ∧
    Controller_GetNodeID (Controller_SetNodeID v s) = v % 256 :=
  ⟨rfl, rfl, rfl⟩
